import Mathlib

/-!
Verification of the POV-Ray scene editor core (file pov-edit-win.py):
the scene data model, the scene-description generator and the
persistence codec.  Python values flowing through the codec are dynamic
(dicts, tuples/lists, numbers, strings, None), so they are embedded as a
JSON-like inductive `JValue`; numbers are modelled as rationals.
Operations that can raise a Python exception (dict subscript, index
subscript, iteration, keyword unpacking) return `Except String`.
In string literals, \x7b and \x7d denote the literal brace characters.
-/

namespace PovEdit

/-- Dynamic (Python/JSON-like) value: None, number, string, list/tuple,
or dict with string keys. -/
inductive JValue where
  | null : JValue
  | num : ℚ → JValue
  | str : String → JValue
  | arr : List JValue → JValue
  | obj : List (String × JValue) → JValue

/-- First-match association lookup, the model of Python dict access. -/
def jlookup (fs : List (String × JValue)) (k : String) : Option JValue :=
  match fs with
  | [] => none
  | (k₁, v) :: rest => if k₁ = k then some v else jlookup rest k

/-- Model of Python `d[k]` for a string key: succeeds only on a dict that
has the key, otherwise KeyError / TypeError. -/
def JValue.getKey : JValue → String → Except String JValue
  | .obj fs, k =>
      match jlookup fs k with
      | some v => .ok v
      | none => .error ("KeyError: " ++ k)
  | _, _ => .error ("TypeError: value is not subscriptable by a string key")

/-- Model of Python `v[i]` for a nonnegative integer index: lists/tuples
index their elements, strings index their characters, everything else is
a TypeError. -/
def JValue.getIdx : JValue → Nat → Except String JValue
  | .arr xs, i =>
      match xs.get? i with
      | some v => .ok v
      | none => .error ("IndexError: list index out of range")
  | .str s, i =>
      match s.data.get? i with
      | some c => .ok (.str (String.singleton c))
      | none => .error ("IndexError: string index out of range")
  | _, _ => .error ("TypeError: value is not subscriptable by an index")

/-- Model of Python truthiness: None, 0, the empty string, the empty
list and the empty dict are falsy, everything else is truthy. -/
def JValue.truthy : JValue → Bool
  | .null => false
  | .num q => !(q = 0)
  | .str s => !(s = "")
  | .arr xs => !xs.isEmpty
  | .obj fs => !fs.isEmpty

/-- Model of Python iteration `for x in v`: lists yield their elements,
strings their characters, dicts their keys; other values are not
iterable. -/
def JValue.iterList : JValue → Except String (List JValue)
  | .arr xs => .ok xs
  | .str s => .ok (s.data.map (fun c => .str (String.singleton c)))
  | .obj fs => .ok (fs.map (fun kv => .str kv.1))
  | _ => .error ("TypeError: value is not iterable")

/-- Model of Python str() as used by the f-strings of the source.  The
values the editor actually formats are numbers and strings; the rendering
of composite values (never produced by the UI nor relied on by the spec)
is abbreviated. -/
def jstr : JValue → String
  | .null => "None"
  | .num q => toString q
  | .str s => s
  | .arr _ => "<tuple>"
  | .obj _ => "<dict>"

/-- Evaluate v[0], v[1], v[2] in order, as the f-strings of the source
do, propagating the first failure. -/
def getIdx3 (v : JValue) : Except String (JValue × JValue × JValue) :=
  match v.getIdx 0 with
  | .error e => .error e
  | .ok a =>
      match v.getIdx 1 with
      | .error e => .error e
      | .ok b =>
          match v.getIdx 2 with
          | .error e => .error e
          | .ok c => .ok (a, b, c)

/-- The class PovrayObject: one scene object.  Every field is stored
exactly as passed, without validation, as in the Python constructor. -/
structure PovrayObject where
  obj_type : JValue
  position : JValue
  rotation : JValue
  scale : JValue
  color : JValue
  texture : JValue

/-- The translate, rotate and scale lines of an object block. -/
def headerTail (p0 p1 p2 r0 r1 r2 s0 s1 s2 : JValue) : String :=
  "    translate <" ++ jstr p0 ++ ", " ++ jstr p1 ++ ", " ++ jstr p2 ++ ">\n"
  ++ "    rotate <" ++ jstr r0 ++ ", " ++ jstr r1 ++ ", " ++ jstr r2 ++ ">\n"
  ++ "    scale <" ++ jstr s0 ++ ", " ++ jstr s1 ++ ", " ++ jstr s2 ++ ">\n"

/-- First lines of an object block (opening, shape keyword, transform
lines), as built by PovrayObject.to_pov. -/
def headerStr (k p0 p1 p2 r0 r1 r2 s0 s1 s2 : JValue) : String :=
  "object \x7b\n" ++ "    " ++ jstr k ++ "\n"
  ++ headerTail p0 p1 p2 r0 r1 r2 s0 s1 s2

/-- The texture reference line emitted when a texture is set. -/
def textureLine (t : JValue) : String :=
  "    texture \x7b " ++ jstr t ++ " \x7d\n"

/-- The pigment/color line emitted when no texture is set. -/
def pigmentLine (c0 c1 c2 : JValue) : String :=
  "    pigment \x7b color rgb <" ++ jstr c0 ++ ", " ++ jstr c1 ++ ", " ++ jstr c2 ++ "> \x7d\n"

/-- The header part of PovrayObject.to_pov: formats obj_type and the
translate/rotate/scale lines, indexing position, rotation and scale in
the order the source evaluates them. -/
def transformHeader (o : PovrayObject) : Except String String :=
  match getIdx3 o.position with
  | .error e => .error e
  | .ok (p0, p1, p2) =>
      match getIdx3 o.rotation with
      | .error e => .error e
      | .ok (r0, r1, r2) =>
          match getIdx3 o.scale with
          | .error e => .error e
          | .ok (s0, s1, s2) => .ok (headerStr o.obj_type p0 p1 p2 r0 r1 r2 s0 s1 s2)

/-- The appearance part of PovrayObject.to_pov: `if self.texture:` picks
the texture reference, otherwise the pigment line is built from the
three color components. -/
def appearance (o : PovrayObject) : Except String String :=
  if o.texture.truthy then .ok (textureLine o.texture)
  else
    match getIdx3 o.color with
    | .error e => .error e
    | .ok (c0, c1, c2) => .ok (pigmentLine c0 c1 c2)

/-- PovrayObject.to_pov: the object block, header then appearance then
the closing brace line. -/
def PovrayObject.to_pov (o : PovrayObject) : Except String String :=
  match transformHeader o with
  | .error e => .error e
  | .ok head =>
      match appearance o with
      | .error e => .error e
      | .ok app => .ok (head ++ app ++ "\x7d\n")

/-- PovrayObject.to_dict: the six fields under their own names. -/
def PovrayObject.to_dict (o : PovrayObject) : JValue :=
  .obj [("obj_type", o.obj_type), ("position", o.position), ("rotation", o.rotation),
        ("scale", o.scale), ("color", o.color), ("texture", o.texture)]

/-- The keyword parameters accepted by the PovrayObject constructor. -/
def allowedKeys : List String :=
  ["obj_type", "position", "rotation", "scale", "color", "texture"]

/-- Default position and rotation (0, 0, 0) of the constructor. -/
def defaultZero : JValue := .arr [.num 0, .num 0, .num 0]

/-- Default scale and color (1, 1, 1) of the constructor. -/
def defaultOne : JValue := .arr [.num 1, .num 1, .num 1]

/-- PovrayObject.from_dict, i.e. `cls(**data)`: fails unless data is a
mapping whose keys all are constructor parameters and obj_type is
present; the other five parameters fall back to the constructor
defaults.  No field value is validated. -/
def PovrayObject.from_dict : JValue → Except String PovrayObject
  | .obj fs =>
      if fs.all (fun kv => allowedKeys.contains kv.1) then
        match jlookup fs "obj_type" with
        | some t =>
            .ok { obj_type := t,
                  position := (jlookup fs "position").getD defaultZero,
                  rotation := (jlookup fs "rotation").getD defaultZero,
                  scale := (jlookup fs "scale").getD defaultOne,
                  color := (jlookup fs "color").getD defaultOne,
                  texture := (jlookup fs "texture").getD .null }
        | none => .error ("TypeError: missing required argument obj_type")
      else .error ("TypeError: unexpected keyword argument")
  | _ => .error ("TypeError: argument after ** must be a mapping")

/-- The class PovrayScene.  objects is always a Python list of
PovrayObject (constructor, from_dict and add_object maintain this);
camera and lights hold whatever raw value construction or from_dict
stored there. -/
structure PovrayScene where
  objects : List PovrayObject
  camera : JValue
  lights : JValue

/-- The PovrayScene constructor: no objects, default camera, no lights. -/
def PovrayScene.new : PovrayScene :=
  { objects := [],
    camera := .obj [("location", .arr [.num 0, .num 0, .num (-10)]),
                    ("look_at", .arr [.num 0, .num 0, .num 0])],
    lights := .arr [] }

/-- PovrayScene.add_object: append to the objects list. -/
def PovrayScene.add_object (s : PovrayScene) (o : PovrayObject) : PovrayScene :=
  { s with objects := s.objects ++ [o] }

/-- PovrayScene.add_light: append a dict with the three light fields to
the lights list; fails (AttributeError) when lights is not a list. -/
def PovrayScene.add_light (s : PovrayScene) (position color intensity : JValue) :
    Except String PovrayScene :=
  match s.lights with
  | .arr ls =>
      .ok { s with lights := .arr (ls ++
              [.obj [("position", position), ("color", color), ("intensity", intensity)]]) }
  | _ => .error ("AttributeError: lights has no append")

/-- The fixed include preamble of generate_scene. -/
def includePreamble : String :=
  "#include \"colors.inc\"\n#include \"textures.inc\"\n#include \"metals.inc\"\n#include \"glass.inc\"\n\n"

/-- The fixed global ambient light line of generate_scene. -/
def ambientLine : String :=
  "global_settings \x7b ambient_light rgb<0.1, 0.1, 0.1> \x7d\n\n"

/-- The camera block text from the six formatted components. -/
def cameraStr (l0 l1 l2 a0 a1 a2 : JValue) : String :=
  "camera \x7b\n    location <" ++ jstr l0 ++ ", " ++ jstr l1 ++ ", " ++ jstr l2
  ++ ">\n    look_at <" ++ jstr a0 ++ ", " ++ jstr a1 ++ ", " ++ jstr a2 ++ ">\n\x7d\n\n"

/-- The camera part of generate_scene: the location member indexed at
0, 1, 2, then the look_at member indexed at 0, 1, 2, in source
evaluation order. -/
def cameraBlock (camera : JValue) : Except String String :=
  match camera.getKey "location" with
  | .error e => .error e
  | .ok loc =>
      match getIdx3 loc with
      | .error e => .error e
      | .ok (l0, l1, l2) =>
          match camera.getKey "look_at" with
          | .error e => .error e
          | .ok la =>
              match getIdx3 la with
              | .error e => .error e
              | .ok (a0, a1, a2) => .ok (cameraStr l0 l1 l2 a0 a1 a2)

/-- The light_source block text from the formatted components. -/
def lightStr (p0 p1 p2 c0 c1 c2 inten : JValue) : String :=
  "light_source \x7b\n    <" ++ jstr p0 ++ ", " ++ jstr p1 ++ ", " ++ jstr p2
  ++ ">\n    color rgb <" ++ jstr c0 ++ ", " ++ jstr c1 ++ ", " ++ jstr c2
  ++ ">\n    intensity " ++ jstr inten ++ "\n\x7d\n\n"

/-- One light block of generate_scene: the position and color members
are read first, then the f-string indexes each of them at 0, 1, 2 and
finally reads the intensity member. -/
def lightBlock (light : JValue) : Except String String :=
  match light.getKey "position" with
  | .error e => .error e
  | .ok pos =>
      match light.getKey "color" with
      | .error e => .error e
      | .ok col =>
          match getIdx3 pos with
          | .error e => .error e
          | .ok (p0, p1, p2) =>
              match getIdx3 col with
              | .error e => .error e
              | .ok (c0, c1, c2) =>
                  match light.getKey "intensity" with
                  | .error e => .error e
                  | .ok inten => .ok (lightStr p0 p1 p2 c0 c1 c2 inten)

/-- The light loop of generate_scene: concatenate the light blocks in
list order, propagating the first failure. -/
def renderLights : List JValue → Except String String
  | [] => .ok ""
  | l :: rest =>
      match lightBlock l with
      | .error e => .error e
      | .ok b =>
          match renderLights rest with
          | .error e => .error e
          | .ok r => .ok (b ++ r)

/-- The object loop of generate_scene: each object contributes
obj.to_pov() plus a blank line, in list order. -/
def renderObjects : List PovrayObject → Except String String
  | [] => .ok ""
  | o :: rest =>
      match o.to_pov with
      | .error e => .error e
      | .ok p =>
          match renderObjects rest with
          | .error e => .error e
          | .ok r => .ok (p ++ "\n" ++ r)

/-- PovrayScene.generate_scene: includes, ambient line, camera block,
light blocks, object blocks, in that order. -/
def PovrayScene.generate_scene (s : PovrayScene) : Except String String :=
  match cameraBlock s.camera with
  | .error e => .error e
  | .ok cam =>
      match s.lights.iterList with
      | .error e => .error e
      | .ok ls =>
          match renderLights ls with
          | .error e => .error e
          | .ok ltxt =>
              match renderObjects s.objects with
              | .error e => .error e
              | .ok otxt => .ok (includePreamble ++ ambientLine ++ cam ++ ltxt ++ otxt)

/-- PovrayScene.to_dict: camera and lights as stored, objects through
PovrayObject.to_dict. -/
def PovrayScene.to_dict (s : PovrayScene) : JValue :=
  .obj [("camera", s.camera), ("lights", s.lights),
        ("objects", .arr (s.objects.map PovrayObject.to_dict))]

/-- The list comprehension of PovrayScene.from_dict: decode each element
in order, propagating the first failure. -/
def decodeObjects : List JValue → Except String (List PovrayObject)
  | [] => .ok []
  | v :: rest =>
      match PovrayObject.from_dict v with
      | .error e => .error e
      | .ok o =>
          match decodeObjects rest with
          | .error e => .error e
          | .ok os => .ok (o :: os)

/-- PovrayScene.from_dict: read the camera, lights and objects members
in source order (KeyError when one is absent), iterate the objects
member and decode each entry. -/
def PovrayScene.from_dict (data : JValue) : Except String PovrayScene :=
  match data.getKey "camera" with
  | .error e => .error e
  | .ok cam =>
      match data.getKey "lights" with
      | .error e => .error e
      | .ok lgts =>
          match data.getKey "objects" with
          | .error e => .error e
          | .ok objsVal =>
              match objsVal.iterList with
              | .error e => .error e
              | .ok objList =>
                  match decodeObjects objList with
                  | .error e => .error e
                  | .ok objs => .ok { objects := objs, camera := cam, lights := lgts }

/-- The load handler of the application: the session scene is replaced
only when from_dict succeeds; on failure the previous scene stays
(the assignment inside try never runs). -/
def installScene (prev : PovrayScene) (data : JValue) : PovrayScene :=
  match PovrayScene.from_dict data with
  | .ok s => s
  | .error _ => prev

/-- Whether indexing v at i succeeds. -/
def jIdxOK (v : JValue) (i : Nat) : Bool :=
  match v.getIdx i with
  | .ok _ => true
  | .error _ => false

/-- Whether v can be indexed at 0, 1 and 2, i.e. behaves as a vector of
at least three components. -/
def vec3OK (v : JValue) : Bool :=
  jIdxOK v 0 && jIdxOK v 1 && jIdxOK v 2

/-- Well-formed camera value: a dict with location and look_at members
that behave as 3-vectors. -/
def cameraOK (c : JValue) : Bool :=
  match c.getKey "location" with
  | .error _ => false
  | .ok l =>
      match c.getKey "look_at" with
      | .error _ => false
      | .ok a => vec3OK l && vec3OK a

/-- Well-formed light value: a dict with position, color and intensity
members whose position and color behave as 3-vectors. -/
def lightOK (l : JValue) : Bool :=
  match l.getKey "position" with
  | .error _ => false
  | .ok p =>
      match l.getKey "color" with
      | .error _ => false
      | .ok c =>
          match l.getKey "intensity" with
          | .error _ => false
          | .ok _ => vec3OK p && vec3OK c

/-- Well-formed object: position, rotation and scale behave as
3-vectors, and so does color unless a truthy texture makes it unused. -/
def objectOK (o : PovrayObject) : Bool :=
  vec3OK o.position && vec3OK o.rotation && vec3OK o.scale &&
    (o.texture.truthy || vec3OK o.color)

/-- Well-formed lights value: iterable, every entry a well-formed
light. -/
def lightsOK (v : JValue) : Bool :=
  match v.iterList with
  | .ok ls => ls.all lightOK
  | .error _ => false

/-- Well-formed scene: well-formed camera, well-formed lights,
well-formed objects. -/
def sceneWF (s : PovrayScene) : Bool :=
  cameraOK s.camera && lightsOK s.lights && s.objects.all objectOK

/-- Concatenation of a list of strings. -/
def strConcat : List String → String
  | [] => ""
  | x :: xs => x ++ strConcat xs

/-- Map a fallible function over a list, failing at the first error. -/
def mapExcept (f : α → Except String β) : List α → Except String (List β)
  | [] => .ok []
  | a :: as =>
      match f a with
      | .error e => .error e
      | .ok b =>
          match mapExcept f as with
          | .error e => .error e
          | .ok bs => .ok (b :: bs)

/-- Substring containment, stated on the character lists. -/
abbrev strContains (s pat : String) : Prop :=
  pat.data <:+: s.data

/-- Concrete scene record whose single primitive record is missing the
rotation, scale, color and texture fields and has a 2-component
position vector. -/
def c2Record : JValue :=
  .obj [("camera", .obj [("location", defaultZero), ("look_at", defaultZero)]),
        ("lights", .arr []),
        ("objects", .arr [.obj [("obj_type", .str "sphere"),
                                ("position", .arr [.num 1, .num 2])]])]

/-- Concrete primitive whose texture is the empty string. -/
def emptyTextureObj : PovrayObject :=
  { obj_type := .str "sphere", position := defaultZero, rotation := defaultZero,
    scale := defaultOne, color := .arr [.num 1, .num 0, .num 0], texture := .str "" }

/-- Concrete primitive with a texture set and a non-default color. -/
def chromeObj : PovrayObject :=
  { obj_type := .str "sphere", position := defaultZero, rotation := defaultZero,
    scale := defaultOne, color := .arr [.num 1, .num 0, .num 0],
    texture := .str "Chrome_Metal" }

/-- Concrete primitive with no texture. -/
def plainObj : PovrayObject := { chromeObj with texture := .null }

theorem strContains_append (a p b : String) : strContains (a ++ p ++ b) p := by
  show p.data <:+: (a ++ p ++ b).data
  rw [String.data_append, String.data_append]
  exact List.infix_append a.data p.data b.data

theorem obj_from_dict_to_dict (o : PovrayObject) :
    PovrayObject.from_dict o.to_dict = Except.ok o := rfl

theorem decodeObjects_map_to_dict (os : List PovrayObject) :
    decodeObjects (os.map PovrayObject.to_dict) = Except.ok os := by
  induction os with
  | nil => rfl
  | cons o rest ih => simp [decodeObjects, obj_from_dict_to_dict, ih]

/-- Claim C1: decoding the record produced by encoding any Scene yields
the same Scene back: same camera, same ordered lights, same ordered
objects with all their fields. -/
theorem scene_roundtrip (s : PovrayScene) :
    PovrayScene.from_dict s.to_dict = Except.ok s := by
  simp [PovrayScene.from_dict, PovrayScene.to_dict, JValue.getKey, jlookup,
        JValue.iterList, decodeObjects_map_to_dict]

/-- Claim C9: add_object appends the object at the end of objects and
leaves camera and lights unchanged; add_light appends a record with
exactly the three light fields at the end of lights and leaves camera
and objects unchanged. -/
theorem add_frame :
    (∀ (s : PovrayScene) (o : PovrayObject),
        (s.add_object o).objects = s.objects ++ [o] ∧
        (s.add_object o).camera = s.camera ∧
        (s.add_object o).lights = s.lights) ∧
    (∀ (s : PovrayScene) (pos col inten : JValue) (ls : List JValue),
        s.lights = .arr ls →
        s.add_light pos col inten =
          Except.ok { s with lights := .arr (ls ++
            [.obj [("position", pos), ("color", col), ("intensity", inten)]]) }) := by
  refine ⟨fun s o => ⟨rfl, rfl, rfl⟩, fun s pos col inten ls h => ?_⟩
  simp [PovrayScene.add_light, h]

theorem add_frame_witness :
    PovrayScene.new.lights = JValue.arr [] ∧
    PovrayScene.new.add_light defaultZero defaultOne (.num 1) =
      Except.ok { PovrayScene.new with lights := JValue.arr ([] ++ [JValue.obj [("position", defaultZero), ("color", defaultOne), ("intensity", JValue.num 1)]]) } :=
  ⟨rfl, add_frame.2 PovrayScene.new defaultZero defaultOne (.num 1) [] rfl⟩

theorem from_dict_error_of_bad_key (fs : List (String × JValue))
    (h : ∃ kv, kv ∈ fs ∧ allowedKeys.contains kv.1 = false) :
    ∃ e, PovrayObject.from_dict (.obj fs) = Except.error e := by
  obtain ⟨kv, hmem, hbad⟩ := h
  have hall : (fs.all fun kv => allowedKeys.contains kv.1) = false :=
    List.all_eq_false.mpr ⟨kv, hmem, by simpa using hbad⟩
  simp only [PovrayObject.from_dict]
  rw [hall, if_neg Bool.false_ne_true]
  exact ⟨_, rfl⟩

theorem from_dict_error_of_no_objtype (fs : List (String × JValue))
    (h : jlookup fs "obj_type" = none) :
    ∃ e, PovrayObject.from_dict (.obj fs) = Except.error e := by
  simp only [PovrayObject.from_dict]
  cases hall : (fs.all fun kv => allowedKeys.contains kv.1) with
  | false =>
      rw [if_neg Bool.false_ne_true]
      exact ⟨_, rfl⟩
  | true =>
      rw [if_pos rfl, h]
      exact ⟨_, rfl⟩

theorem from_dict_ok_of_keys (fs : List (String × JValue)) (t : JValue)
    (hall : (fs.all fun kv => allowedKeys.contains kv.1) = true)
    (ht : jlookup fs "obj_type" = some t) :
    PovrayObject.from_dict (.obj fs) = Except.ok
      { obj_type := t,
        position := (jlookup fs "position").getD defaultZero,
        rotation := (jlookup fs "rotation").getD defaultZero,
        scale := (jlookup fs "scale").getD defaultOne,
        color := (jlookup fs "color").getD defaultOne,
        texture := (jlookup fs "texture").getD .null } := by
  simp only [PovrayObject.from_dict]
  rw [if_pos hall, ht]

/-- Claim C10: PovrayObject.from_dict fails on any record with a key
outside the six constructor parameters or with obj_type missing, and
succeeds on any other record, filling absent fields with the defaults
(0,0,0), (0,0,0), (1,1,1), (1,1,1) and no texture. -/
theorem from_dict_key_discipline :
    (∀ fs : List (String × JValue),
        (∃ kv, kv ∈ fs ∧ allowedKeys.contains kv.1 = false) →
        ∃ e, PovrayObject.from_dict (.obj fs) = Except.error e) ∧
    (∀ fs : List (String × JValue), jlookup fs "obj_type" = none →
        ∃ e, PovrayObject.from_dict (.obj fs) = Except.error e) ∧
    (∀ (fs : List (String × JValue)) (t : JValue),
        fs.all (fun kv => allowedKeys.contains kv.1) = true →
        jlookup fs "obj_type" = some t →
        PovrayObject.from_dict (.obj fs) = Except.ok
          { obj_type := t,
            position := (jlookup fs "position").getD defaultZero,
            rotation := (jlookup fs "rotation").getD defaultZero,
            scale := (jlookup fs "scale").getD defaultOne,
            color := (jlookup fs "color").getD defaultOne,
            texture := (jlookup fs "texture").getD .null }) :=
  ⟨from_dict_error_of_bad_key, from_dict_error_of_no_objtype, from_dict_ok_of_keys⟩

theorem from_dict_key_discipline_witness :
    (∃ e, PovrayObject.from_dict (.obj [("bogus", JValue.null)]) = Except.error e) ∧
    (∃ e, PovrayObject.from_dict (.obj [("position", defaultZero)]) = Except.error e) ∧
    PovrayObject.from_dict (.obj [("obj_type", JValue.str "sphere")]) = Except.ok
      { obj_type := JValue.str "sphere", position := defaultZero,
        rotation := defaultZero, scale := defaultOne, color := defaultOne,
        texture := JValue.null } :=
  ⟨from_dict_key_discipline.1 _ ⟨("bogus", JValue.null), by simp, rfl⟩,
   from_dict_key_discipline.2.1 _ rfl,
   from_dict_key_discipline.2.2 _ _ rfl rfl⟩

/-- Claim C3: decoding a record in which camera, lights or objects is
absent fails, and the failure is atomic: the load handler keeps the
previously active scene unchanged. -/
theorem scene_decode_missing_member_atomic (prev : PovrayScene)
    (fs : List (String × JValue))
    (h : jlookup fs "camera" = none ∨ jlookup fs "lights" = none ∨
         jlookup fs "objects" = none) :
    (∃ e, PovrayScene.from_dict (.obj fs) = Except.error e) ∧
    installScene prev (.obj fs) = prev := by
  have herr : ∃ e, PovrayScene.from_dict (.obj fs) = Except.error e := by
    rcases h with h | h | h
    · simp [PovrayScene.from_dict, JValue.getKey, h]
    · cases hc : jlookup fs "camera" with
      | none => simp [PovrayScene.from_dict, JValue.getKey, hc]
      | some cam => simp [PovrayScene.from_dict, JValue.getKey, hc, h]
    · cases hc : jlookup fs "camera" with
      | none => simp [PovrayScene.from_dict, JValue.getKey, hc]
      | some cam =>
          cases hl : jlookup fs "lights" with
          | none => simp [PovrayScene.from_dict, JValue.getKey, hc, hl]
          | some lg => simp [PovrayScene.from_dict, JValue.getKey, hc, hl, h]
  obtain ⟨e, he⟩ := herr
  exact ⟨⟨e, he⟩, by simp [installScene, he]⟩

theorem scene_decode_missing_member_atomic_witness :
    jlookup [] "camera" = none ∧
    ((∃ e, PovrayScene.from_dict (.obj []) = Except.error e) ∧
     installScene PovrayScene.new (.obj []) = PovrayScene.new) :=
  ⟨rfl, scene_decode_missing_member_atomic PovrayScene.new [] (Or.inl rfl)⟩

/-- Claim C2 fails on the code: a scene record whose primitive record
is missing rotation, scale, color and texture and whose position is a
2-component vector decodes successfully; no error is raised. -/
theorem scene_decode_accepts_malformed :
    ∃ s, PovrayScene.from_dict c2Record = Except.ok s ∧ s.objects.length = 1 :=
  ⟨_, rfl, rfl⟩

theorem getIdx3_error_of_not_vec3OK (v : JValue) (h : vec3OK v = false) :
    ∃ e, getIdx3 v = Except.error e := by
  unfold vec3OK jIdxOK at h
  unfold getIdx3
  cases h0 : v.getIdx 0 with
  | error e => exact ⟨e, rfl⟩
  | ok a =>
      cases h1 : v.getIdx 1 with
      | error e => exact ⟨e, by simp⟩
      | ok b =>
          cases h2 : v.getIdx 2 with
          | error e => exact ⟨e, by simp⟩
          | ok c => simp [h0, h1, h2] at h

theorem to_pov_error_of_bad_position (o : PovrayObject)
    (h : vec3OK o.position = false) : ∃ e, o.to_pov = Except.error e := by
  obtain ⟨e, he⟩ := getIdx3_error_of_not_vec3OK o.position h
  exact ⟨e, by simp [PovrayObject.to_pov, transformHeader, he]⟩

/-- Claim C2 amended: PovrayObject.from_dict validates no geometric
field.  A primitive record whose keys are constructor parameters and
which has obj_type decodes successfully even when position, rotation or
scale is absent (defaults apply) or has the wrong shape (stored as is);
a wrong-shaped position is an error only later, when to_pov indexes
it. -/
theorem object_decode_lenient :
    (∀ (fs : List (String × JValue)) (t : JValue),
        fs.all (fun kv => allowedKeys.contains kv.1) = true →
        jlookup fs "obj_type" = some t →
        ∃ o, PovrayObject.from_dict (.obj fs) = Except.ok o) ∧
    (∀ o : PovrayObject, vec3OK o.position = false →
        ∃ e, o.to_pov = Except.error e) :=
  ⟨fun fs t hall ht => ⟨_, from_dict_ok_of_keys fs t hall ht⟩,
   to_pov_error_of_bad_position⟩

theorem object_decode_lenient_witness :
    (∃ o, PovrayObject.from_dict
        (.obj [("obj_type", JValue.str "sphere"),
               ("position", JValue.arr [.num 1, .num 2])]) = Except.ok o) ∧
    (∃ e, PovrayObject.to_pov
        { obj_type := JValue.str "sphere", position := JValue.arr [.num 1, .num 2],
          rotation := defaultZero, scale := defaultOne, color := defaultOne,
          texture := JValue.null } = Except.error e) :=
  ⟨object_decode_lenient.1 _ _ rfl rfl, object_decode_lenient.2 _ rfl⟩

theorem getIdx3_ok_of_vec3OK (v : JValue) (h : vec3OK v = true) :
    ∃ a b c, getIdx3 v = Except.ok (a, b, c) := by
  unfold vec3OK jIdxOK at h
  cases h0 : v.getIdx 0 with
  | error e => rw [h0] at h; simp at h
  | ok a =>
      cases h1 : v.getIdx 1 with
      | error e => rw [h0, h1] at h; simp at h
      | ok b =>
          cases h2 : v.getIdx 2 with
          | error e => rw [h0, h1, h2] at h; simp at h
          | ok c => exact ⟨a, b, c, by simp [getIdx3, h0, h1, h2]⟩

theorem transformHeader_eq (o : PovrayObject)
    (p0 p1 p2 r0 r1 r2 s0 s1 s2 : JValue)
    (hP : getIdx3 o.position = Except.ok (p0, p1, p2))
    (hR : getIdx3 o.rotation = Except.ok (r0, r1, r2))
    (hS : getIdx3 o.scale = Except.ok (s0, s1, s2)) :
    transformHeader o = Except.ok (headerStr o.obj_type p0 p1 p2 r0 r1 r2 s0 s1 s2) := by
  simp [transformHeader, hP, hR, hS]

theorem appearance_of_truthy (o : PovrayObject) (h : o.texture.truthy = true) :
    appearance o = Except.ok (textureLine o.texture) := by
  simp [appearance, h]

theorem appearance_of_falsy (o : PovrayObject) (h : o.texture.truthy = false)
    (c0 c1 c2 : JValue) (hC : getIdx3 o.color = Except.ok (c0, c1, c2)) :
    appearance o = Except.ok (pigmentLine c0 c1 c2) := by
  simp [appearance, h, hC]

theorem to_pov_eq (o : PovrayObject) (head app : String)
    (hh : transformHeader o = Except.ok head)
    (ha : appearance o = Except.ok app) :
    o.to_pov = Except.ok (head ++ app ++ "\x7d\n") := by
  simp [PovrayObject.to_pov, hh, ha]

theorem objectOK_unpack (o : PovrayObject) (h : objectOK o = true) :
    vec3OK o.position = true ∧ vec3OK o.rotation = true ∧ vec3OK o.scale = true ∧
    (o.texture.truthy = true ∨ vec3OK o.color = true) := by
  simp only [objectOK, Bool.and_eq_true, Bool.or_eq_true] at h
  exact ⟨h.1.1.1, h.1.1.2, h.1.2, h.2⟩

theorem to_pov_ok (o : PovrayObject) (h : objectOK o = true) :
    ∃ out, o.to_pov = Except.ok out := by
  obtain ⟨hp, hr, hs, hc⟩ := objectOK_unpack o h
  obtain ⟨p0, p1, p2, hP⟩ := getIdx3_ok_of_vec3OK _ hp
  obtain ⟨r0, r1, r2, hR⟩ := getIdx3_ok_of_vec3OK _ hr
  obtain ⟨s0, s1, s2, hS⟩ := getIdx3_ok_of_vec3OK _ hs
  have hh := transformHeader_eq o _ _ _ _ _ _ _ _ _ hP hR hS
  rcases hc with hc | hc
  · exact ⟨_, to_pov_eq o _ _ hh (appearance_of_truthy o hc)⟩
  · obtain ⟨c0, c1, c2, hC⟩ := getIdx3_ok_of_vec3OK _ hc
    cases ht : o.texture.truthy with
    | true => exact ⟨_, to_pov_eq o _ _ hh (appearance_of_truthy o ht)⟩
    | false => exact ⟨_, to_pov_eq o _ _ hh (appearance_of_falsy o ht c0 c1 c2 hC)⟩

theorem cameraBlock_ok (c : JValue) (h : cameraOK c = true) :
    ∃ b, cameraBlock c = Except.ok b := by
  unfold cameraOK at h
  cases hl : c.getKey "location" with
  | error e => rw [hl] at h; simp at h
  | ok loc =>
      rw [hl] at h
      cases ha : c.getKey "look_at" with
      | error e => rw [ha] at h; simp at h
      | ok la =>
          rw [ha] at h
          simp only [Bool.and_eq_true] at h
          obtain ⟨l0, l1, l2, hL⟩ := getIdx3_ok_of_vec3OK _ h.1
          obtain ⟨a0, a1, a2, hA⟩ := getIdx3_ok_of_vec3OK _ h.2
          simp [cameraBlock, hl, ha, hL, hA]

theorem lightBlock_ok (l : JValue) (h : lightOK l = true) :
    ∃ b, lightBlock l = Except.ok b := by
  unfold lightOK at h
  cases hp : l.getKey "position" with
  | error e => rw [hp] at h; simp at h
  | ok pos =>
      rw [hp] at h
      cases hc : l.getKey "color" with
      | error e => rw [hc] at h; simp at h
      | ok col =>
          rw [hc] at h
          cases hi : l.getKey "intensity" with
          | error e => rw [hi] at h; simp at h
          | ok inten =>
              rw [hi] at h
              simp only [Bool.and_eq_true] at h
              obtain ⟨p0, p1, p2, hP⟩ := getIdx3_ok_of_vec3OK _ h.1
              obtain ⟨c0, c1, c2, hC⟩ := getIdx3_ok_of_vec3OK _ h.2
              simp [lightBlock, hp, hc, hi, hP, hC]

theorem mapExcept_ok_of_all {α β : Type} {f : α → Except String β} (l : List α)
    (h : ∀ a ∈ l, ∃ b, f a = Except.ok b) :
    ∃ bs, mapExcept f l = Except.ok bs := by
  induction l with
  | nil => exact ⟨[], rfl⟩
  | cons a rest ih =>
      obtain ⟨b, hb⟩ := h a (List.mem_cons_self a rest)
      obtain ⟨bs, hbs⟩ := ih (fun x hx => h x (List.mem_cons_of_mem a hx))
      exact ⟨b :: bs, by simp [mapExcept, hb, hbs]⟩

theorem mapExcept_length {α β : Type} {f : α → Except String β} (l : List α)
    (bs : List β) (h : mapExcept f l = Except.ok bs) : bs.length = l.length := by
  induction l generalizing bs with
  | nil =>
      simp only [mapExcept] at h
      cases h
      rfl
  | cons a rest ih =>
      simp only [mapExcept] at h
      cases hb : f a with
      | error e => rw [hb] at h; simp at h
      | ok b =>
          rw [hb] at h
          cases hr : mapExcept f rest with
          | error e => rw [hr] at h; simp at h
          | ok bs2 =>
              rw [hr] at h
              simp only [Except.ok.injEq] at h
              subst h
              simp [ih bs2 hr]

theorem renderLights_eq_mapExcept (ls : List JValue) (bs : List String)
    (h : mapExcept lightBlock ls = Except.ok bs) :
    renderLights ls = Except.ok (strConcat bs) := by
  induction ls generalizing bs with
  | nil =>
      simp only [mapExcept] at h
      cases h
      rfl
  | cons l rest ih =>
      simp only [mapExcept] at h
      cases hb : lightBlock l with
      | error e => rw [hb] at h; simp at h
      | ok b =>
          rw [hb] at h
          cases hr : mapExcept lightBlock rest with
          | error e => rw [hr] at h; simp at h
          | ok bs2 =>
              rw [hr] at h
              simp only [Except.ok.injEq] at h
              subst h
              simp [renderLights, hb, ih bs2 hr, strConcat]

theorem renderObjects_eq_mapExcept (os : List PovrayObject) (ps : List String)
    (h : mapExcept PovrayObject.to_pov os = Except.ok ps) :
    renderObjects os = Except.ok (strConcat (ps.map (fun p => p ++ "\n"))) := by
  induction os generalizing ps with
  | nil =>
      simp only [mapExcept] at h
      cases h
      rfl
  | cons o rest ih =>
      simp only [mapExcept] at h
      cases hp : o.to_pov with
      | error e => rw [hp] at h; simp at h
      | ok p =>
          rw [hp] at h
          cases hr : mapExcept PovrayObject.to_pov rest with
          | error e => rw [hr] at h; simp at h
          | ok ps2 =>
              rw [hr] at h
              simp only [Except.ok.injEq] at h
              subst h
              simp [renderObjects, hp, ih ps2 hr, strConcat, String.append_assoc]

theorem generate_scene_eq (s : PovrayScene) (cam : String) (ls : List JValue)
    (ltxt otxt : String)
    (hc : cameraBlock s.camera = Except.ok cam)
    (hl : s.lights.iterList = Except.ok ls)
    (hlt : renderLights ls = Except.ok ltxt)
    (hot : renderObjects s.objects = Except.ok otxt) :
    s.generate_scene = Except.ok (includePreamble ++ ambientLine ++ cam ++ ltxt ++ otxt) := by
  simp [PovrayScene.generate_scene, hc, hl, hlt, hot]

theorem sceneWF_unpack (s : PovrayScene) (h : sceneWF s = true) :
    cameraOK s.camera = true ∧
    (∃ ls, s.lights.iterList = Except.ok ls ∧ ls.all lightOK = true) ∧
    s.objects.all objectOK = true := by
  simp only [sceneWF, Bool.and_eq_true] at h
  obtain ⟨⟨h1, h2⟩, h3⟩ := h
  refine ⟨h1, ?_, h3⟩
  unfold lightsOK at h2
  cases hl : s.lights.iterList with
  | error e => rw [hl] at h2; simp at h2
  | ok ls =>
      rw [hl] at h2
      exact ⟨ls, rfl, h2⟩

theorem appearance_ok (o : PovrayObject)
    (hc : o.texture.truthy = true ∨ vec3OK o.color = true) :
    ∃ app, appearance o = Except.ok app := by
  rcases hc with hc | hc
  · exact ⟨_, appearance_of_truthy o hc⟩
  · cases ht : o.texture.truthy with
    | true => exact ⟨_, appearance_of_truthy o ht⟩
    | false =>
        obtain ⟨c0, c1, c2, hC⟩ := getIdx3_ok_of_vec3OK _ hc
        exact ⟨_, appearance_of_falsy o ht c0 c1 c2 hC⟩

set_option maxRecDepth 4000 in
/-- Claim C5 fails on the code: this primitive has a texture value (the
empty string, distinct from the absent-texture None), yet its fragment
carries no texture reference and does carry a pigment/color line,
because the source tests truthiness rather than presence. -/
theorem texture_empty_string_cex :
    emptyTextureObj.texture ≠ JValue.null ∧
    ∃ out, emptyTextureObj.to_pov = Except.ok out ∧
      ¬ strContains out "texture \x7b" ∧
      strContains out (pigmentLine (.num 1) (.num 0) (.num 0)) := by
  refine ⟨by simp [emptyTextureObj], ⟨_, rfl, ?_, ?_⟩⟩ <;> decide

/-- Claim C5 amended: a texture that is present and nonempty takes
precedence — the appearance line of the fragment is exactly the texture
reference, and color is ignored entirely; when texture is absent the
appearance line is exactly the pigment directive carrying the three
color components. -/
theorem texture_precedence_amended :
    (∀ (o : PovrayObject) (t : String),
        o.texture = JValue.str t → t ≠ "" →
        vec3OK o.position = true → vec3OK o.rotation = true →
        vec3OK o.scale = true →
        ∃ head, transformHeader o = Except.ok head ∧
          o.to_pov = Except.ok (head ++ textureLine (.str t) ++ "\x7d\n") ∧
          strContains (head ++ textureLine (.str t) ++ "\x7d\n")
            (textureLine (.str t)) ∧
          (∀ c : JValue, PovrayObject.to_pov { o with color := c } = o.to_pov)) ∧
    (∀ o : PovrayObject,
        o.texture = JValue.null →
        vec3OK o.position = true → vec3OK o.rotation = true →
        vec3OK o.scale = true → vec3OK o.color = true →
        ∃ head c0 c1 c2, transformHeader o = Except.ok head ∧
          getIdx3 o.color = Except.ok (c0, c1, c2) ∧
          o.to_pov = Except.ok (head ++ pigmentLine c0 c1 c2 ++ "\x7d\n") ∧
          strContains (head ++ pigmentLine c0 c1 c2 ++ "\x7d\n")
            (pigmentLine c0 c1 c2)) := by
  constructor
  · intro o t ht hne hp hr hs
    have htt : o.texture.truthy = true := by
      rw [ht]; simp [JValue.truthy, hne]
    obtain ⟨p0, p1, p2, hP⟩ := getIdx3_ok_of_vec3OK _ hp
    obtain ⟨r0, r1, r2, hR⟩ := getIdx3_ok_of_vec3OK _ hr
    obtain ⟨s0, s1, s2, hS⟩ := getIdx3_ok_of_vec3OK _ hs
    have hh := transformHeader_eq o _ _ _ _ _ _ _ _ _ hP hR hS
    have h2 := to_pov_eq o _ _ hh (appearance_of_truthy o htt)
    rw [ht] at h2
    refine ⟨_, hh, h2, strContains_append _ _ _, fun c => ?_⟩
    have hh2 : transformHeader { o with color := c } =
        Except.ok (headerStr o.obj_type p0 p1 p2 r0 r1 r2 s0 s1 s2) := hh
    have ha2 : appearance { o with color := c } =
        Except.ok (textureLine o.texture) := appearance_of_truthy _ htt
    rw [to_pov_eq { o with color := c } _ _ hh2 ha2,
        to_pov_eq o _ _ hh (appearance_of_truthy o htt)]
  · intro o ht hp hr hs hcol
    have htf : o.texture.truthy = false := by rw [ht]; rfl
    obtain ⟨p0, p1, p2, hP⟩ := getIdx3_ok_of_vec3OK _ hp
    obtain ⟨r0, r1, r2, hR⟩ := getIdx3_ok_of_vec3OK _ hr
    obtain ⟨s0, s1, s2, hS⟩ := getIdx3_ok_of_vec3OK _ hs
    obtain ⟨c0, c1, c2, hC⟩ := getIdx3_ok_of_vec3OK _ hcol
    have hh := transformHeader_eq o _ _ _ _ _ _ _ _ _ hP hR hS
    exact ⟨_, c0, c1, c2, hh, hC,
      to_pov_eq o _ _ hh (appearance_of_falsy o htf c0 c1 c2 hC),
      strContains_append _ _ _⟩

theorem texture_precedence_amended_witness :
    (∃ head, transformHeader chromeObj = Except.ok head ∧
       chromeObj.to_pov = Except.ok (head ++ textureLine (.str "Chrome_Metal") ++ "\x7d\n") ∧
       strContains (head ++ textureLine (.str "Chrome_Metal") ++ "\x7d\n")
         (textureLine (.str "Chrome_Metal")) ∧
       (∀ c : JValue, PovrayObject.to_pov { chromeObj with color := c } =
         chromeObj.to_pov)) ∧
    (∃ head c0 c1 c2, transformHeader plainObj = Except.ok head ∧
       getIdx3 plainObj.color = Except.ok (c0, c1, c2) ∧
       plainObj.to_pov = Except.ok (head ++ pigmentLine c0 c1 c2 ++ "\x7d\n") ∧
       strContains (head ++ pigmentLine c0 c1 c2 ++ "\x7d\n")
         (pigmentLine c0 c1 c2)) :=
  ⟨texture_precedence_amended.1 chromeObj "Chrome_Metal" rfl (by decide) rfl rfl rfl,
   texture_precedence_amended.2 plainObj rfl rfl rfl rfl rfl⟩

/-- Claim C7: to_pov does not validate obj_type against the enumerated
shape set; any kind string, known or not, is emitted verbatim as the
base shape keyword right after the opening line, and emission
succeeds. -/
theorem to_pov_kind_unvalidated (o : PovrayObject) (k : String)
    (hk : o.obj_type = JValue.str k)
    (hp : vec3OK o.position = true) (hr : vec3OK o.rotation = true)
    (hs : vec3OK o.scale = true)
    (hc : o.texture.truthy = true ∨ vec3OK o.color = true) :
    ∃ rest, o.to_pov = Except.ok ("object \x7b\n" ++ "    " ++ k ++ "\n" ++ rest) := by
  obtain ⟨p0, p1, p2, hP⟩ := getIdx3_ok_of_vec3OK _ hp
  obtain ⟨r0, r1, r2, hR⟩ := getIdx3_ok_of_vec3OK _ hr
  obtain ⟨s0, s1, s2, hS⟩ := getIdx3_ok_of_vec3OK _ hs
  have hh := transformHeader_eq o _ _ _ _ _ _ _ _ _ hP hR hS
  obtain ⟨app, ha⟩ := appearance_ok o hc
  have h2 := to_pov_eq o _ _ hh ha
  refine ⟨headerTail p0 p1 p2 r0 r1 r2 s0 s1 s2 ++ app ++ "\x7d\n", ?_⟩
  rw [h2, hk]
  congr 1
  simp [headerStr, jstr, String.append_assoc]

theorem to_pov_kind_unvalidated_witness :
    (PovrayObject.mk (JValue.str "frobnicator") defaultZero defaultZero defaultOne
        defaultOne JValue.null).obj_type = JValue.str "frobnicator" ∧
    ((JValue.null).truthy = true ∨ vec3OK defaultOne = true) ∧
    ∃ rest, (PovrayObject.mk (JValue.str "frobnicator") defaultZero defaultZero
        defaultOne defaultOne JValue.null).to_pov =
      Except.ok ("object \x7b\n" ++ "    " ++ "frobnicator" ++ "\n" ++ rest) :=
  ⟨rfl, Or.inr rfl,
   to_pov_kind_unvalidated _ "frobnicator" rfl rfl rfl rfl (Or.inr rfl)⟩

/-- Claim C8: the texture-versus-pigment choice is by truthiness: a
falsy texture value such as the empty string renders exactly as the
absent texture None, with a pigment/color line as the appearance. -/
theorem texture_falsy_as_absent (o : PovrayObject)
    (h : o.texture.truthy = false) :
    o.to_pov = PovrayObject.to_pov { o with texture := JValue.null } ∧
    (vec3OK o.color = true →
      ∃ c0 c1 c2, appearance o = Except.ok (pigmentLine c0 c1 c2)) := by
  constructor
  · have ht : appearance { o with texture := JValue.null } = appearance o := by
      have h2 := h
      simp only [JValue.truthy] at h2
      simp [appearance, JValue.truthy, h2]
    have hth : transformHeader { o with texture := JValue.null } =
        transformHeader o := rfl
    simp only [PovrayObject.to_pov, hth, ht]
  · intro hc
    obtain ⟨c0, c1, c2, hC⟩ := getIdx3_ok_of_vec3OK _ hc
    exact ⟨c0, c1, c2, appearance_of_falsy o h c0 c1 c2 hC⟩

theorem texture_falsy_as_absent_witness :
    emptyTextureObj.texture.truthy = false ∧
    (emptyTextureObj.to_pov =
        PovrayObject.to_pov { emptyTextureObj with texture := JValue.null } ∧
     (vec3OK emptyTextureObj.color = true →
       ∃ c0 c1 c2, appearance emptyTextureObj = Except.ok (pigmentLine c0 c1 c2))) :=
  ⟨rfl, texture_falsy_as_absent emptyTextureObj rfl⟩

/-- Claim C4: for every well-formed Scene, generate_scene succeeds (it
is pure and total over the data model) and is deterministic. -/
theorem generate_scene_total_deterministic (s : PovrayScene)
    (h : sceneWF s = true) :
    (∃ out, s.generate_scene = Except.ok out) ∧
    s.generate_scene = s.generate_scene := by
  refine ⟨?_, rfl⟩
  obtain ⟨h1, ⟨ls, hl, hall⟩, h3⟩ := sceneWF_unpack s h
  obtain ⟨cam, hc⟩ := cameraBlock_ok _ h1
  obtain ⟨bs, hbs⟩ := mapExcept_ok_of_all ls
    (fun l hm => lightBlock_ok l (List.all_eq_true.mp hall l hm))
  obtain ⟨ps, hps⟩ := mapExcept_ok_of_all s.objects
    (fun o hm => to_pov_ok o (List.all_eq_true.mp h3 o hm))
  exact ⟨_, generate_scene_eq s cam ls _ _ hc hl
    (renderLights_eq_mapExcept ls bs hbs)
    (renderObjects_eq_mapExcept s.objects ps hps)⟩

theorem generate_scene_total_deterministic_witness :
    sceneWF PovrayScene.new = true ∧
    ((∃ out, PovrayScene.new.generate_scene = Except.ok out) ∧
     PovrayScene.new.generate_scene = PovrayScene.new.generate_scene) :=
  ⟨rfl, generate_scene_total_deterministic PovrayScene.new rfl⟩

/-- Claim C6: for every well-formed Scene the generated document is, in
order, the fixed include preamble, the global ambient-light line, one
camera block, one light block per lights entry in list order, and one
object block (followed by a blank line) per objects entry in list
order; with no lights and no objects the document is exactly preamble,
ambient line and the single camera block. -/
theorem generate_scene_structure (s : PovrayScene) (ls : List JValue)
    (hl : s.lights.iterList = Except.ok ls) (h : sceneWF s = true) :
    ∃ cam bs ps,
      cameraBlock s.camera = Except.ok cam ∧
      mapExcept lightBlock ls = Except.ok bs ∧
      mapExcept PovrayObject.to_pov s.objects = Except.ok ps ∧
      bs.length = ls.length ∧
      ps.length = s.objects.length ∧
      s.generate_scene = Except.ok
        (includePreamble ++ ambientLine ++ cam ++ strConcat bs ++
         strConcat (ps.map (fun p => p ++ "\n"))) ∧
      (ls = [] → s.objects = [] →
        s.generate_scene = Except.ok (includePreamble ++ ambientLine ++ cam)) := by
  obtain ⟨h1, ⟨ls2, hl2, hall⟩, h3⟩ := sceneWF_unpack s h
  rw [hl] at hl2
  cases hl2
  obtain ⟨cam, hc⟩ := cameraBlock_ok _ h1
  obtain ⟨bs, hbs⟩ := mapExcept_ok_of_all ls
    (fun l hm => lightBlock_ok l (List.all_eq_true.mp hall l hm))
  obtain ⟨ps, hps⟩ := mapExcept_ok_of_all s.objects
    (fun o hm => to_pov_ok o (List.all_eq_true.mp h3 o hm))
  have hgen := generate_scene_eq s cam ls _ _ hc hl
    (renderLights_eq_mapExcept ls bs hbs)
    (renderObjects_eq_mapExcept s.objects ps hps)
  refine ⟨cam, bs, ps, hc, hbs, hps, mapExcept_length ls bs hbs,
    mapExcept_length s.objects ps hps, hgen, ?_⟩
  intro hls hos
  subst hls
  have hbs0 : bs = [] := List.length_eq_zero.mp (mapExcept_length [] bs hbs)
  have hps0 : ps = [] := by
    rw [hos] at hps
    exact List.length_eq_zero.mp (mapExcept_length [] ps hps)
  subst hbs0
  subst hps0
  simpa [strConcat, String.append_empty] using hgen

theorem generate_scene_structure_witness :
    PovrayScene.new.lights.iterList = Except.ok [] ∧
    sceneWF PovrayScene.new = true ∧
    (∃ cam bs ps,
      cameraBlock PovrayScene.new.camera = Except.ok cam ∧
      mapExcept lightBlock [] = Except.ok bs ∧
      mapExcept PovrayObject.to_pov PovrayScene.new.objects = Except.ok ps ∧
      bs.length = List.length ([] : List JValue) ∧
      ps.length = PovrayScene.new.objects.length ∧
      PovrayScene.new.generate_scene = Except.ok
        (includePreamble ++ ambientLine ++ cam ++ strConcat bs ++
         strConcat (ps.map (fun p => p ++ "\n"))) ∧
      (([] : List JValue) = [] → PovrayScene.new.objects = [] →
        PovrayScene.new.generate_scene =
          Except.ok (includePreamble ++ ambientLine ++ cam))) :=
  ⟨rfl, rfl, generate_scene_structure PovrayScene.new [] rfl rfl⟩

end PovEdit
